import Mathlib

/-!
Verification of the automaton-auditor workflow engine and arbitration layer.

The definitions below are a shallow embedding of the Python sources:
`src/state.py` (data model and reducers), `src/graph.py` (routing
conditions), `src/nodes/detectives.py` (evidence aggregator),
`src/nodes/judges.py` (opinion producers with retry/fallback), and
`src/nodes/justice.py` (deterministic arbitration and report rollup).
Python floats are modelled as rationals, Python dicts as association
lists with the dict-union (`operator.ior`) merge semantics, and the
external LLM calls as oracle parameters.
-/

-- ───────────────────────── Data model (src/state.py) ─────────────────────────

/-- `Evidence` from `src/state.py`: a single forensic finding. -/
structure Evidence where
  goal : String
  found : Bool
  content : Option String := none
  location : String
  rationale : String
  confidence : ℚ
deriving DecidableEq

/-- The judge identity literal `"Prosecutor" | "Defense" | "TechLead"`. -/
inductive Judge where
  | Prosecutor
  | Defense
  | TechLead
deriving DecidableEq

/-- `JudicialOpinion` from `src/state.py`. -/
structure JudicialOpinion where
  judge : Judge
  criterion_id : String
  score : Int
  argument : String
  cited_evidence : List String
deriving DecidableEq

/-- A rubric dimension (an entry of `rubric_dimensions`): id, display name,
and the declared levels as an ordered mapping level-name → score
(mirroring `dim["levels"]` with each level's `"score"` field). -/
structure Dimension where
  id : String
  name : String
  levels : List (String × Int)
deriving DecidableEq

/-- `CriterionResult` from `src/state.py`. -/
structure CriterionResult where
  dimension_id : String
  dimension_name : String
  final_score : Int
  judge_opinions : List JudicialOpinion
  dissent_summary : Option String
  remediation : String
deriving DecidableEq

/-- `AuditReport` from `src/state.py`; `overall_score` (a Python float) is a rational. -/
structure AuditReport where
  repo_url : String
  executive_summary : String
  overall_score : ℚ
  criteria : List CriterionResult
  remediation_plan : String
  timestamp : String
deriving DecidableEq

/-- The evidence map of `AgentState.evidences`: an insertion-ordered
Python dict `source-key → list of Evidence`, modelled as an association list. -/
abbrev EvidenceMap := List (String × List Evidence)

/-- `AgentState` from `src/state.py` (the LangGraph shared state). -/
structure AgentState where
  repo_url : String
  pdf_path : Option String := none
  local_repo_path : Option String := none
  rubric_dimensions : List Dimension := []
  evidences : EvidenceMap := []
  opinions : List JudicialOpinion := []
  final_report : Option AuditReport := none
  errors : List String := []

-- ───────────── Dict semantics: lookup and `operator.ior` merge ─────────────

/-- Python dict lookup on the association-list model (first matching key). -/
def dlookup {α : Type} (m : List (String × α)) (k : String) : Option α :=
  match m with
  | [] => none
  | (k₁, v) :: rest => if k₁ = k then some v else dlookup rest k

/-- `operator.ior` on dicts (`a |= b`), the reducer annotated on
`AgentState.evidences`: keys of `a` keep their position with values
overwritten by `b` where present; keys only in `b` are appended in
`b`'s order. -/
def dictIor {α : Type} (a b : List (String × α)) : List (String × α) :=
  a.map (fun kv =>
    match dlookup b kv.1 with
    | some v => (kv.1, v)
    | none => kv)
  ++ b.filter (fun kv => (dlookup a kv.1).isNone)

-- ─────────────────── Routing conditions (src/graph.py) ───────────────────

/-- `should_aggregate_or_abort` from `src/graph.py`: abort when no evidence
at all was collected and errors accumulated. -/
def should_aggregate_or_abort (state : AgentState) : String :=
  if state.evidences.isEmpty && !state.errors.isEmpty then "abort" else "aggregate"

/-- Total evidence item count: `sum(len(v) for v in evidences.values())`. -/
def totalEvidence (evidences : EvidenceMap) : Nat :=
  (evidences.map (fun kv => kv.2.length)).sum

/-- `after_aggregation` from `src/graph.py`: abort when the total evidence
item count is below 1. -/
def after_aggregation (state : AgentState) : String :=
  if totalEvidence state.evidences < 1 then "abort" else "sufficient_evidence"

-- ───────────────── Lemmas about the dict merge ─────────────────

theorem dlookup_append {α : Type} (xs ys : List (String × α)) (k : String) :
    dlookup (xs ++ ys) k =
      match dlookup xs k with
      | some v => some v
      | none => dlookup ys k := by
  induction xs with
  | nil => simp [dlookup]
  | cons hd tl ih =>
    obtain ⟨k₁, v⟩ := hd
    by_cases h : k₁ = k <;> simp [dlookup, h, ih]

theorem dlookup_map_override {α : Type} (b : List (String × α)) (a : List (String × α))
    (k : String) :
    dlookup (a.map (fun kv =>
      match dlookup b kv.1 with
      | some v => (kv.1, v)
      | none => kv)) k =
      match dlookup a k with
      | some v => some ((dlookup b k).getD v)
      | none => none := by
  induction a with
  | nil => simp [dlookup]
  | cons hd tl ih =>
    obtain ⟨k₁, v₁⟩ := hd
    by_cases h : k₁ = k
    · subst h
      cases hb : dlookup b k₁ <;> simp [dlookup, hb]
    · cases hb : dlookup b k₁ <;> simp [dlookup, h, hb, ih]

theorem dlookup_filter_fresh {α : Type} (a : List (String × α)) (k : String)
    (h : dlookup a k = none) (b : List (String × α)) :
    dlookup (b.filter (fun kv => (dlookup a kv.1).isNone)) k = dlookup b k := by
  induction b with
  | nil => simp
  | cons hd tl ih =>
    obtain ⟨k₁, v₁⟩ := hd
    by_cases hk : k₁ = k
    · subst hk
      simp [dlookup, h]
    · cases ha : dlookup a k₁ <;> simp [dlookup, hk, ha, ih]

/-- The characteristic equation of the `operator.ior` merge: the right
operand wins at shared keys, the left operand's value survives otherwise. -/
theorem dlookup_dictIor {α : Type} (a b : List (String × α)) (k : String) :
    dlookup (dictIor a b) k =
      match dlookup b k with
      | some w => some w
      | none => dlookup a k := by
  unfold dictIor
  rw [dlookup_append, dlookup_map_override]
  cases ha : dlookup a k <;> cases hb : dlookup b k <;>
    simp [hb]
  · rw [dlookup_filter_fresh a k ha b, hb]
  · rw [dlookup_filter_fresh a k ha b, hb]

-- ───────────── Evidence aggregator (src/nodes/detectives.py) ─────────────

/-- `evidences.get(key, [])`. -/
def evidenceAt (evidences : EvidenceMap) (k : String) : List Evidence :=
  (dlookup evidences k).getD []

/-- `next((e for e in items if e.goal == g), None)`. -/
def findGoal (items : List Evidence) (g : String) : Option Evidence :=
  items.find? (fun e => decide (e.goal = g))

/-- All evidence items across sources, in dict order
(`for source, items in evidences.items(): all_evidence_items.extend(items)`). -/
def allItems (evidences : EvidenceMap) : List Evidence :=
  evidences.foldl (fun acc kv => acc ++ kv.2) []

/-- The detective sources the aggregator expects. -/
def expectedSources : List String := ["repo", "doc", "vision"]

/-- `evidence_aggregator` from `src/nodes/detectives.py`: the list of audit
evidence it returns under the `"aggregation"` source key.  The completeness
audit is appended unconditionally; the cross-reference, quality and error
summaries only under their respective conditions. -/
def evidence_aggregator (state : AgentState) : List Evidence :=
  let evidences := state.evidences
  let errors := state.errors
  let missing_sources := expectedSources.filter (fun s => (dlookup evidences s).isNone)
  let present_sources := expectedSources.filter (fun s => (dlookup evidences s).isSome)
  let completeness : Evidence :=
    { goal := "evidence_completeness"
      found := decide (missing_sources.length = 0)
      content := some ("Present: " ++ toString present_sources ++ ", Missing: " ++
        toString missing_sources)
      location := "EvidenceAggregator"
      rationale := toString present_sources.length ++ "/" ++
        toString expectedSources.length ++ " detective sources reported evidence."
      confidence := 1 }
  let repo_evidence := evidenceAt evidences "repo"
  let doc_evidence := evidenceAt evidences "doc"
  let path_claims := findGoal doc_evidence "report_file_path_claims"
  let crossRef : List Evidence :=
    match path_claims with
    | some pce =>
      match pce.content with
      | some c =>
        if c ≠ "" ∧ repo_evidence ≠ [] then
          [{ goal := "cross_reference_readiness"
             found := true
             content := some (toString (c.splitOn ",").length ++
               " paths to verify against repo structure")
             location := "EvidenceAggregator"
             rationale := "Report path claims extracted and ready for cross-reference with repo evidence."
             confidence := 17/20 }]
        else []
      | none => []
    | none => []
  let all_evidence_items := allItems evidences
  let quality : List Evidence :=
    if all_evidence_items ≠ [] then
      let avg_confidence : ℚ :=
        (all_evidence_items.map (fun e => e.confidence)).sum / all_evidence_items.length
      let found_count := (all_evidence_items.filter (fun e => e.found)).length
      let total_count := all_evidence_items.length
      [{ goal := "evidence_quality_summary"
         found := decide (avg_confidence > 1/2)
         content := some ("Total items: " ++ toString total_count ++ ", Found: " ++
           toString found_count ++ ", Missing: " ++ toString (total_count - found_count) ++
           ", Avg confidence: " ++ toString avg_confidence)
         location := "EvidenceAggregator"
         rationale := "Aggregated " ++ toString total_count ++ " evidence items across " ++
           toString present_sources.length ++ " sources. " ++ toString found_count ++ "/" ++
           toString total_count ++ " findings were positive. Average confidence: " ++
           toString avg_confidence ++ "."
         confidence := avg_confidence }]
    else []
  let errorSummary : List Evidence :=
    if errors ≠ [] then
      [{ goal := "error_summary"
         found := false
         content := some (String.intercalate "; " errors)
         location := "EvidenceAggregator"
         rationale := toString errors.length ++ " error(s) occurred during detective execution."
         confidence := 1 }]
    else []
  completeness :: (crossRef ++ quality ++ errorSummary)

/-- The state after the aggregator's return value
`{"evidences": {"aggregation": aggregation_evidence}}` is folded into
`AgentState.evidences` by the `operator.ior` reducer. -/
def applyAggregatorUpdate (state : AgentState) : AgentState :=
  { state with evidences := dictIor state.evidences [("aggregation", evidence_aggregator state)] }

-- ───────────── Opinion producers (src/nodes/judges.py) ─────────────

/-- The retry loop inside `create_judge_node`: up to `fuel` attempts of
`structured_llm.invoke`, remembering the last failure. `invoke` is the
external LLM call, modelled as an oracle indexed by the attempt number. -/
def retryLoop (invoke : Nat → Except String JudicialOpinion) :
    Nat → Nat → Option String → Option JudicialOpinion × Option String
  | _, 0, lastError => (none, lastError)
  | attempt, fuel + 1, lastError =>
    match invoke attempt with
    | Except.ok o => (some o, lastError)
    | Except.error e => retryLoop invoke (attempt + 1) fuel (some e)

/-- One dimension's opinion in `create_judge_node`: a successful structured
call has its judge/criterion metadata forced; after all 3 attempts fail, the
fallback zero-score opinion carries the failure reason in its argument. -/
def judgeOpinionFor (name : Judge) (invoke : Nat → Except String JudicialOpinion)
    (dim : Dimension) : JudicialOpinion :=
  match retryLoop invoke 0 3 none with
  | (some o, _) => { o with judge := name, criterion_id := dim.id }
  | (none, lastError) =>
    { judge := name
      criterion_id := dim.id
      score := 0
      argument := "ERROR: Failed to render opinion after 3 attempts. " ++ lastError.getD "None"
      cited_evidence := [] }

/-- The per-dimension loop of `create_judge_node`; the oracle is indexed by
the dimension's position and the attempt number. -/
def judgeNodeAux (name : Judge) (oracle : Nat → Nat → Except String JudicialOpinion) :
    Nat → List Dimension → List JudicialOpinion
  | _, [] => []
  | i, d :: ds => judgeOpinionFor name (oracle i) d :: judgeNodeAux name oracle (i + 1) ds

/-- A judge node produced by `create_judge_node`: one opinion per rubric dimension. -/
def judge_node (name : Judge) (oracle : Nat → Nat → Except String JudicialOpinion)
    (dims : List Dimension) : List JudicialOpinion :=
  judgeNodeAux name oracle 0 dims

-- ───────────── Arbitration engine (src/nodes/justice.py) ─────────────

/-- `[o for o in opinions if o.criterion_id == dim_id]`. -/
def dimOpinions (dim : Dimension) (opinions : List JudicialOpinion) : List JudicialOpinion :=
  opinions.filter (fun o => decide (o.criterion_id = dim.id))

/-- `next((o for o in dim_opinions if o.judge == name), None)`. -/
def findJudge (j : Judge) (ops : List JudicialOpinion) : Option JudicialOpinion :=
  ops.find? (fun o => decide (o.judge = j))

/-- `scores = [o.score for o in dim_opinions]`. -/
def opScores (ops : List JudicialOpinion) : List Int :=
  ops.map (fun o => o.score)

/-- Python `max` over a non-empty integer list (0 on the never-used empty case). -/
def listMax : List Int → Int
  | [] => 0
  | x :: xs => xs.foldl max x

/-- Python `min` over a non-empty integer list (0 on the never-used empty case). -/
def listMin : List Int → Int
  | [] => 0
  | x :: xs => xs.foldl min x

/-- `avg_score = sum(scores) / len(scores)` as an exact rational. -/
def avgScore (ops : List JudicialOpinion) : ℚ :=
  ((opScores ops).sum : ℚ) / (ops.length : ℚ)

/-- `variance = max(scores) - min(scores)` over the raw opinions. -/
def variance (ops : List JudicialOpinion) : Int :=
  listMax (opScores ops) - listMin (opScores ops)

/-- `p` is a prefix of `l` (character-wise equality test). -/
def hasPre : List Char → List Char → Bool
  | _, [] => true
  | [], _ :: _ => false
  | c :: cs, d :: ds => c == d && hasPre cs ds

/-- `p` occurs as a contiguous sublist of the second argument. -/
def containsSub (p : List Char) : List Char → Bool
  | [] => hasPre [] p
  | c :: cs => hasPre (c :: cs) p || containsSub p cs

/-- Python `.lower()`: character-wise lower-casing of a string. -/
def strLower (s : String) : String :=
  ⟨s.data.map Char.toLower⟩

/-- Python `needle in hay` on strings: substring containment. -/
def strContains (hay needle : String) : Bool :=
  containsSub needle.toList hay.toList

/-- The keyword list of the refined security trigger. -/
def securityKeywords : List String :=
  ["security", "negligence", "unsafe", "raw shell", "os.system"]

/-- `is_security_flaw`: the Prosecutor charges a critical score below 15 and
the argument mentions a security keyword (lower-cased substring search). -/
def isSecurityFlaw (prosecutor : Option JudicialOpinion) : Bool :=
  match prosecutor with
  | some p =>
    decide (p.score < 15) && securityKeywords.any (fun w => strContains (strLower p.argument) w)
  | none => false

/-- The Rule of Security trigger: a flagged security flaw or the
`safe_tool_engineering` forensic evidence reported not-found. -/
def securityTrigger (prosecutor : Option JudicialOpinion) (safeTooling : Option Evidence) :
    Bool :=
  isSecurityFlaw prosecutor ||
    (match safeTooling with
     | some e => !e.found
     | none => false)

/-- Rule of Security: `final_score = min(final_score, 3)` when triggered. -/
def applySecurity (trigger : Bool) (score : ℚ) : ℚ :=
  if trigger then min score 3 else score

/-- Rule of Functionality: for `graph_orchestration` with a TechLead opinion
present, the score is replaced by the TechLead's score. -/
def applyFunctionality (dimId : String) (techLead : Option JudicialOpinion) (score : ℚ) : ℚ :=
  match techLead with
  | some t => if dimId = "graph_orchestration" then (t.score : ℚ) else score
  | none => score

/-- The Rule of Evidence trigger: Defense scored above 21 while the
completeness audit reports missing sources or the hallucination audit
reports confirmed hallucinations. -/
def evidenceTrigger (defense : Option JudicialOpinion)
    (completeness hallucinations : Option Evidence) : Bool :=
  match defense with
  | some d =>
    decide (d.score > 21) &&
      ((match completeness with
        | some c => !c.found
        | none => false) ||
       (match hallucinations with
        | some h => h.found
        | none => false))
  | none => false

/-- Rule of Evidence: `final_score = min(final_score, tech_lead.score if
tech_lead else 21)` when triggered. -/
def applyEvidence (trigger : Bool) (techLead : Option JudicialOpinion) (score : ℚ) : ℚ :=
  if trigger then
    min score
      (match techLead with
       | some t => (t.score : ℚ)
       | none => 21)
  else score

/-- `score_values = [v.get("score", 0) for v in levels.values()]`. -/
def scoreValues (levels : List (String × Int)) : List Int :=
  levels.map (fun kv => kv.2)

/-- Python `min(values, key=key)`: the first element attaining the minimal
key (later elements replace the running best only on a strictly smaller key). -/
def pyMinBy (key : Int → ℚ) : List Int → Int
  | [] => 0
  | x :: xs => xs.foldl (fun best y => if key y < key best then y else best) x

/-- Level snapping: `min(score_values, key=lambda x: abs(x - final_score))`
when the dimension declares levels, the score unchanged otherwise. -/
def snapScore (levels : List (String × Int)) (score : ℚ) : ℚ :=
  match scoreValues levels with
  | [] => score
  | v :: vs => ((pyMinBy (fun x => |(x : ℚ) - score|) (v :: vs) : Int) : ℚ)

/-- Python `int()` on a rational: truncation toward zero. -/
def pyInt (q : ℚ) : Int :=
  Int.tdiv q.num (q.den : Int)

/-- The adjusted score entering level snapping for one dimension: the mean
baseline passed through the Rules of Security, Functionality and Evidence in
source order. -/
def scoreBeforeSnap (dim : Dimension) (opinions : List JudicialOpinion)
    (evidences : EvidenceMap) : ℚ :=
  let ops := dimOpinions dim opinions
  let prosecutor := findJudge Judge.Prosecutor ops
  let defense := findJudge Judge.Defense ops
  let tech := findJudge Judge.TechLead ops
  let safeTooling := findGoal (evidenceAt evidences "repo") "safe_tool_engineering"
  let completeness := findGoal (evidenceAt evidences "aggregation") "evidence_completeness"
  let hallucinations := findGoal (evidenceAt evidences "doc") "path_hallucinations_detected"
  applyEvidence (evidenceTrigger defense completeness hallucinations) tech
    (applyFunctionality dim.id tech
      (applySecurity (securityTrigger prosecutor safeTooling) (avgScore ops)))

/-- The dissent summary text quoting the extremal camps. -/
def dissentMessage (prosecutor defense : Option JudicialOpinion) : String :=
  "Judicial conflict detected. Prosecutor argued for " ++
    (match prosecutor with
     | some p => toString p.score
     | none => "N/A") ++
  " citing technical gaps, while Defense pushed for " ++
    (match defense with
     | some d => toString d.score
     | none => "N/A") ++
  " highlighting design intent."

/-- The per-dimension synthesis record built by `chief_justice_node`
(the dict appended to `results`). -/
structure DimResult where
  dimension_id : String
  dimension_name : String
  final_score : Int
  judge_opinions : List JudicialOpinion
  dissent_summary : Option String
  remediation : String
  max_score : Int
  is_no_exchange : Bool
deriving DecidableEq

/-- One iteration of the dimension loop of `chief_justice_node`: `none` when
no opinion matches the dimension (the dimension is skipped). -/
def synthesizeDim (dim : Dimension) (opinions : List JudicialOpinion)
    (evidences : EvidenceMap) : Option DimResult :=
  match dimOpinions dim opinions with
  | [] => none
  | _ :: _ =>
    let ops := dimOpinions dim opinions
    let prosecutor := findJudge Judge.Prosecutor ops
    let defense := findJudge Judge.Defense ops
    let tech := findJudge Judge.TechLead ops
    let safeTooling := findGoal (evidenceAt evidences "repo") "safe_tool_engineering"
    let secTrigger := securityTrigger prosecutor safeTooling
    let remediationBase :=
      match tech with
      | some t => t.argument
      | none => "Standard mitigation required."
    let remediation :=
      if secTrigger then
        "CRITICAL SECURITY FIX REQUIRED: " ++
          (match prosecutor with
           | some p => p.argument
           | none => "Unsafe tool usage detected.")
      else remediationBase
    let snapped := snapScore dim.levels (scoreBeforeSnap dim opinions evidences)
    let dissent :=
      if variance ops > 10 then some (dissentMessage prosecutor defense) else none
    some
      { dimension_id := dim.id
        dimension_name := dim.name
        final_score := pyInt snapped
        judge_opinions := ops
        dissent_summary := dissent
        remediation := remediation
        max_score :=
          match scoreValues dim.levels with
          | [] => 35
          | v :: vs => listMax (v :: vs)
        is_no_exchange :=
          decide (snapped = 0) &&
            dim.levels.any (fun kv => strContains (strLower kv.1) "exchange") }

/-- The `results` list accumulated over all rubric dimensions. -/
def chiefJusticeResults (dims : List Dimension) (opinions : List JudicialOpinion)
    (evidences : EvidenceMap) : List DimResult :=
  dims.filterMap (fun d => synthesizeDim d opinions evidences)

/-- `valid_results = [r for r in results if not r["is_no_exchange"]]`. -/
def validResults (results : List DimResult) : List DimResult :=
  results.filter (fun r => !r.is_no_exchange)

/-- `total_raw_points = sum(r["final_score"] for r in results)`. -/
def totalRawPoints (results : List DimResult) : Int :=
  (results.map (fun r => r.final_score)).sum

/-- `total_possible_points = sum(r["max_score"] for r in valid_results)`. -/
def totalPossiblePoints (results : List DimResult) : Int :=
  ((validResults results).map (fun r => r.max_score)).sum

/-- `overall_percentage`: the valid results' raw points over the possible
points, times 100; `0` when the possible points are not positive. -/
def overallPercentage (results : List DimResult) : ℚ :=
  if 0 < totalPossiblePoints results then
    (((validResults results).map (fun r => r.final_score)).sum : ℚ) /
      (totalPossiblePoints results : ℚ) * 100
  else 0

/-- The final report assembly of `chief_justice_node`; the wall-clock
timestamp is an external input. -/
def chief_justice_node (state : AgentState) (timestamp : String) : AuditReport :=
  let results := chiefJusticeResults state.rubric_dimensions state.opinions state.evidences
  let overall := overallPercentage results
  { repo_url := state.repo_url
    executive_summary :=
      "The Automaton Auditor Swarm has delivered its verdict for " ++ state.repo_url ++
      ". Final Grade: " ++ toString (totalRawPoints results) ++ "/" ++
      toString (totalPossiblePoints results) ++ " (" ++ toString overall ++
      "%). The court analyzed evidence across parallel detective branches and synthesized findings through a dialectical judicial process."
    overall_score := overall
    criteria := results.map (fun r =>
      { dimension_id := r.dimension_id
        dimension_name := r.dimension_name
        final_score := r.final_score
        judge_opinions := r.judge_opinions
        dissent_summary := r.dissent_summary
        remediation := r.remediation })
    remediation_plan :=
      String.intercalate "\n"
        (results.map (fun r => "### " ++ r.dimension_name ++ "\n" ++ r.remediation))
    timestamp := timestamp }

-- ───────────────────────── Shared concrete fixtures ─────────────────────────

/-- A minimal concrete evidence item used by witnesses. -/
def sampleEvidence (g : String) (f : Bool) : Evidence :=
  { goal := g, found := f, content := none, location := "loc", rationale := "r", confidence := 1 }

/-- A concrete rubric dimension used by witnesses. -/
def wDim1 : Dimension := { id := "d1", name := "D1", levels := [("half", 5), ("full", 10)] }

/-- A concrete rubric dimension whose level names mention an exchange. -/
def wDim2 : Dimension :=
  { id := "d2", name := "D2", levels := [("no_exchange", 0), ("exchange_full", 10)] }

/-- A concrete TechLead opinion used by witnesses. -/
def wOpinion (c : String) (sc : Int) : JudicialOpinion :=
  { judge := Judge.TechLead, criterion_id := c, score := sc, argument := "arg",
    cited_evidence := [] }

-- ───────────────────────── Claim C1 ─────────────────────────

/-- Claim C1: merging two partial evidence maps with disjoint source keys
(distinct producers) into a RunState whose evidence map does not yet hold
those keys appends each partial's list at its key (creating the key, the
existing list being absent), and the merge is commutative: either merge
order yields the same final mapping. -/
theorem evidence_merge_append_and_commutative (s p1 p2 : EvidenceMap)
    (hdisj : ∀ k, (dlookup p1 k).isSome → dlookup p2 k = none)
    (hfresh1 : ∀ k, (dlookup p1 k).isSome → dlookup s k = none)
    (hfresh2 : ∀ k, (dlookup p2 k).isSome → dlookup s k = none) :
    (∀ k l, dlookup p1 k = some l →
      dlookup (dictIor (dictIor s p1) p2) k = some ((dlookup s k).getD [] ++ l)) ∧
    (∀ k l, dlookup p2 k = some l →
      dlookup (dictIor (dictIor s p1) p2) k = some ((dlookup s k).getD [] ++ l)) ∧
    (∀ k, dlookup (dictIor (dictIor s p1) p2) k = dlookup (dictIor (dictIor s p2) p1) k) := by
  refine ⟨?_, ?_, ?_⟩
  · intro k l h1
    have hsome : (dlookup p1 k).isSome := by rw [h1]; rfl
    have h2 := hdisj k hsome
    have hs := hfresh1 k hsome
    rw [dlookup_dictIor, h2, dlookup_dictIor, h1, hs]
    simp
  · intro k l h2
    have hsome : (dlookup p2 k).isSome := by rw [h2]; rfl
    have hs := hfresh2 k hsome
    rw [dlookup_dictIor, h2, hs]
    simp
  · intro k
    rw [dlookup_dictIor, dlookup_dictIor, dlookup_dictIor, dlookup_dictIor]
    cases h1 : dlookup p1 k with
    | none => cases h2 : dlookup p2 k <;> simp
    | some l1 =>
      have h2 := hdisj k (by rw [h1]; rfl)
      rw [h2]

/-- A concrete partial map from the repo producer. -/
def wP1 : EvidenceMap := [("repo", [sampleEvidence "g1" true])]

/-- A concrete partial map from the doc producer. -/
def wP2 : EvidenceMap := [("doc", [sampleEvidence "g2" false])]

theorem evidence_merge_append_and_commutative_witness :
    dlookup (dictIor (dictIor ([] : EvidenceMap) wP1) wP2) "repo" =
      some ((dlookup ([] : EvidenceMap) "repo").getD [] ++ [sampleEvidence "g1" true]) ∧
    dlookup (dictIor (dictIor ([] : EvidenceMap) wP1) wP2) "doc" =
      some ((dlookup ([] : EvidenceMap) "doc").getD [] ++ [sampleEvidence "g2" false]) ∧
    dlookup (dictIor (dictIor ([] : EvidenceMap) wP1) wP2) "vision" =
      dlookup (dictIor (dictIor ([] : EvidenceMap) wP2) wP1) "vision" := by
  have hdisj : ∀ k, (dlookup wP1 k).isSome → dlookup wP2 k = none := by
    intro k hk
    by_cases h : "repo" = k
    · subst h; simp [wP2, dlookup]
    · simp [wP1, dlookup, h] at hk
  have hfresh1 : ∀ k, (dlookup wP1 k).isSome → dlookup ([] : EvidenceMap) k = none :=
    fun k _ => rfl
  have hfresh2 : ∀ k, (dlookup wP2 k).isSome → dlookup ([] : EvidenceMap) k = none :=
    fun k _ => rfl
  have h := evidence_merge_append_and_commutative [] wP1 wP2 hdisj hfresh1 hfresh2
  exact ⟨h.1 "repo" _ (by decide), h.2.1 "doc" _ (by decide), h.2.2 "vision"⟩

-- ───────────────────────── Claim C2 ─────────────────────────

/-- Claim C2: the Barrier A route aborts exactly when the evidence map is
empty and the error list is non-empty (proceeding to aggregation otherwise),
and the post-aggregation route aborts exactly when the total evidence item
count is below the minimum of 1 (proceeding to the judges otherwise). -/
theorem abort_route_iff_conditions (s : AgentState) :
    (should_aggregate_or_abort s = "abort" ↔ s.evidences = [] ∧ s.errors ≠ []) ∧
    (should_aggregate_or_abort s = "aggregate" ↔ ¬(s.evidences = [] ∧ s.errors ≠ [])) ∧
    (after_aggregation s = "abort" ↔ totalEvidence s.evidences < 1) ∧
    (after_aggregation s = "sufficient_evidence" ↔ ¬ totalEvidence s.evidences < 1) := by
  obtain ⟨u, pp, lp, rd, ev, op, fr, er⟩ := s
  refine ⟨?_, ?_, ?_, ?_⟩
  · cases ev <;> cases er <;> simp [should_aggregate_or_abort]
  · cases ev <;> cases er <;> simp [should_aggregate_or_abort]
  · unfold after_aggregation
    by_cases h : totalEvidence ev < 1 <;> simp [h]
  · unfold after_aggregation
    by_cases h : totalEvidence ev < 1 <;> simp [h]

-- ───────────────────────── Claim C4 ─────────────────────────

/-- Claim C4: the Rule of Security never raises the arbitration score:
whatever the opinions and evidence, the score right after the rule is at
most the baseline it received. -/
theorem rule_of_security_never_raises (prosecutor : Option JudicialOpinion)
    (safeTooling : Option Evidence) (baseline : ℚ) :
    applySecurity (securityTrigger prosecutor safeTooling) baseline ≤ baseline := by
  unfold applySecurity
  split
  · exact min_le_left _ _
  · exact le_refl _

-- ───────────────────────── Claim C7 ─────────────────────────

theorem judgeNodeAux_length (name : Judge)
    (oracle : Nat → Nat → Except String JudicialOpinion) :
    ∀ (i : Nat) (ds : List Dimension), (judgeNodeAux name oracle i ds).length = ds.length := by
  intro i ds
  induction ds generalizing i with
  | nil => rfl
  | cons d ds ih => simp [judgeNodeAux, ih]

theorem judgeNodeAux_fail (name : Judge) (e : String) :
    ∀ (i : Nat) (ds : List Dimension),
      ∀ op ∈ judgeNodeAux name (fun _ _ => Except.error e) i ds,
        op.score = 0 ∧ op.judge = name ∧
        op.argument = "ERROR: Failed to render opinion after 3 attempts. " ++ e := by
  intro i ds
  induction ds generalizing i with
  | nil => intro op h; simp [judgeNodeAux] at h
  | cons d ds ih =>
    intro op h
    simp only [judgeNodeAux] at h
    rcases List.mem_cons.mp h with h | h
    · subst h
      exact ⟨rfl, rfl, rfl⟩
    · exact ih _ op h

theorem judgeNodeAux_retry_success (name : Judge) (e : String) (op0 : JudicialOpinion) :
    ∀ (i : Nat) (ds : List Dimension),
      ∀ op ∈ judgeNodeAux name
        (fun _ j => if j < 2 then Except.error e else Except.ok op0) i ds,
        op.score = op0.score := by
  intro i ds
  induction ds generalizing i with
  | nil => intro op h; simp [judgeNodeAux] at h
  | cons d ds ih =>
    intro op h
    simp only [judgeNodeAux] at h
    rcases List.mem_cons.mp h with h | h
    · subst h; rfl
    · exact ih _ op h

/-- Claim C7: each opinion producer returns exactly one opinion per rubric
dimension; a structured call is retried (bounded at 3 attempts) and a full
failure substitutes 1:1 a zero-score fallback carrying the failure reason,
so the three producers together always deliver 3 × |dimensions| opinions. -/
theorem one_opinion_per_dimension_with_fallback
    (o1 o2 o3 : Nat → Nat → Except String JudicialOpinion)
    (dims : List Dimension) (e : String) (op0 : JudicialOpinion) :
    (judge_node Judge.Prosecutor o1 dims).length = dims.length ∧
    (judge_node Judge.Defense o2 dims).length = dims.length ∧
    (judge_node Judge.TechLead o3 dims).length = dims.length ∧
    (judge_node Judge.Prosecutor o1 dims ++ judge_node Judge.Defense o2 dims ++
      judge_node Judge.TechLead o3 dims).length = 3 * dims.length ∧
    (∀ op ∈ judge_node Judge.Prosecutor (fun _ _ => Except.error e) dims,
      op.score = 0 ∧ op.judge = Judge.Prosecutor ∧
      op.argument = "ERROR: Failed to render opinion after 3 attempts. " ++ e) ∧
    (∀ op ∈ judge_node Judge.Defense
        (fun _ j => if j < 2 then Except.error e else Except.ok op0) dims,
      op.score = op0.score) := by
  have h1 := judgeNodeAux_length Judge.Prosecutor o1 0 dims
  have h2 := judgeNodeAux_length Judge.Defense o2 0 dims
  have h3 := judgeNodeAux_length Judge.TechLead o3 0 dims
  refine ⟨h1, h2, h3, ?_, ?_, ?_⟩
  · simp only [judge_node, List.length_append, h1, h2, h3]
    omega
  · exact judgeNodeAux_fail Judge.Prosecutor e 0 dims
  · exact judgeNodeAux_retry_success Judge.Defense e op0 0 dims

/-- The concrete fallback opinion produced for `wDim1` when every attempt fails. -/
def wFallback : JudicialOpinion :=
  { judge := Judge.Prosecutor, criterion_id := "d1", score := 0,
    argument := "ERROR: Failed to render opinion after 3 attempts. x", cited_evidence := [] }

theorem one_opinion_per_dimension_with_fallback_witness :
    (judge_node Judge.Prosecutor (fun _ _ => Except.error "x") [wDim1]).length = 1 ∧
    wFallback ∈ judge_node Judge.Prosecutor (fun _ _ => Except.error "x") [wDim1] ∧
    wFallback.score = 0 ∧ wFallback.judge = Judge.Prosecutor ∧
    wFallback.argument = "ERROR: Failed to render opinion after 3 attempts. " ++ "x" := by
  have h := one_opinion_per_dimension_with_fallback (fun _ _ => Except.error "x")
    (fun _ _ => Except.error "x") (fun _ _ => Except.error "x") [wDim1] "x" (wOpinion "d1" 7)
  have hmem : wFallback ∈ judge_node Judge.Prosecutor (fun _ _ => Except.error "x") [wDim1] := by
    decide
  obtain ⟨hs, hj, ha⟩ := h.2.2.2.2.1 wFallback hmem
  exact ⟨h.1, hmem, hs, hj, ha⟩

-- ───────────────────────── Claim C10 ─────────────────────────

theorem dlookup_length_le_totalEvidence (m : EvidenceMap) (k : String) (l : List Evidence)
    (h : dlookup m k = some l) : l.length ≤ totalEvidence m := by
  induction m with
  | nil => simp [dlookup] at h
  | cons hd tl ih =>
    obtain ⟨k₁, v₁⟩ := hd
    unfold totalEvidence
    simp only [List.map_cons, List.sum_cons]
    by_cases hk : k₁ = k
    · simp only [dlookup, if_pos hk, Option.some.injEq] at h
      subst h
      exact Nat.le_add_right _ _
    · simp only [dlookup, if_neg hk] at h
      have := ih h
      unfold totalEvidence at this
      omega

/-- Claim C10: the post-aggregation abort branch is never taken — the
aggregator always contributes at least the completeness audit under the
`"aggregation"` key, so the route after it always answers
`"sufficient_evidence"`. -/
theorem post_aggregation_abort_unreachable (s : AgentState) :
    after_aggregation (applyAggregatorUpdate s) = "sufficient_evidence" := by
  have hlook : dlookup (applyAggregatorUpdate s).evidences "aggregation" =
      some (evidence_aggregator s) := by
    show dlookup (dictIor s.evidences [("aggregation", evidence_aggregator s)]) "aggregation" = _
    rw [dlookup_dictIor]
    simp [dlookup]
  have hlen : 1 ≤ (evidence_aggregator s).length := by
    unfold evidence_aggregator
    simp
  have htot := dlookup_length_le_totalEvidence _ _ _ hlook
  unfold after_aggregation
  have hge : ¬ totalEvidence (applyAggregatorUpdate s).evidences < 1 := by omega
  simp [hge]

-- ───────────────────────── Claim C3 ─────────────────────────

/-- The accumulator step of Python `min(values, key=key)`: a later element
replaces the running best only on a strictly smaller key. -/
def pyStep (key : Int → ℚ) (best y : Int) : Int :=
  if key y < key best then y else best

theorem pyMinBy_cons (key : Int → ℚ) (x : Int) (xs : List Int) :
    pyMinBy key (x :: xs) = xs.foldl (pyStep key) x := rfl

theorem foldl_pyStep_mem (key : Int → ℚ) :
    ∀ (xs : List Int) (acc : Int), xs.foldl (pyStep key) acc ∈ acc :: xs := by
  intro xs
  induction xs with
  | nil => intro acc; simp
  | cons y ys ih =>
    intro acc
    have h := ih (pyStep key acc y)
    simp only [List.foldl_cons]
    rcases List.mem_cons.mp h with h | h
    · rw [h]
      unfold pyStep
      split
      · exact List.mem_cons_of_mem _ (List.mem_cons_self _ _)
      · exact List.mem_cons_self _ _
    · exact List.mem_cons_of_mem _ (List.mem_cons_of_mem _ h)

theorem foldl_pyStep_le (key : Int → ℚ) :
    ∀ (xs : List Int) (acc : Int),
      key (xs.foldl (pyStep key) acc) ≤ key acc ∧
      ∀ y ∈ xs, key (xs.foldl (pyStep key) acc) ≤ key y := by
  intro xs
  induction xs with
  | nil => intro acc; exact ⟨le_refl _, by simp⟩
  | cons z zs ih =>
    intro acc
    obtain ⟨h1, h2⟩ := ih (pyStep key acc z)
    have hstep : key (pyStep key acc z) ≤ key acc ∧ key (pyStep key acc z) ≤ key z := by
      unfold pyStep
      split
      · exact ⟨le_of_lt (by assumption), le_refl _⟩
      · exact ⟨le_refl _, le_of_not_lt (by assumption)⟩
    simp only [List.foldl_cons]
    refine ⟨le_trans h1 hstep.1, ?_⟩
    intro y hy
    rcases List.mem_cons.mp hy with h | h
    · subst h; exact le_trans h1 hstep.2
    · exact h2 y h

theorem foldl_pyStep_first (key : Int → ℚ) :
    ∀ (xs : List Int) (acc : Int),
      key acc ≤ key (xs.foldl (pyStep key) acc) → xs.foldl (pyStep key) acc = acc := by
  intro xs
  induction xs with
  | nil => intro acc _; rfl
  | cons z zs ih =>
    intro acc h
    simp only [List.foldl_cons] at h ⊢
    by_cases hz : key z < key acc
    · have hstep : pyStep key acc z = z := if_pos hz
      rw [hstep] at h ⊢
      have h1 := (foldl_pyStep_le key zs z).1
      exact absurd (h.trans h1) (not_le.mpr hz)
    · have hstep : pyStep key acc z = acc := if_neg hz
      rw [hstep] at h ⊢
      exact ih acc h

theorem foldl_pyStep_find (key : Int → ℚ) :
    ∀ (xs : List Int) (acc : Int),
      (acc :: xs).find? (fun y => decide (key y ≤ key (xs.foldl (pyStep key) acc))) =
        some (xs.foldl (pyStep key) acc) := by
  intro xs
  induction xs with
  | nil => intro acc; simp
  | cons z zs ih =>
    intro acc
    simp only [List.foldl_cons]
    by_cases hz : key z < key acc
    · have hstep : pyStep key acc z = z := if_pos hz
      simp only [hstep]
      have hr := ih z
      have hle := (foldl_pyStep_le key zs z).1
      have hacc : ¬ key acc ≤ key (zs.foldl (pyStep key) z) :=
        not_le.mpr (lt_of_le_of_lt hle hz)
      rw [List.find?_cons_of_neg _ (by simpa using hacc)]
      exact hr
    · have hstep : pyStep key acc z = acc := if_neg hz
      simp only [hstep]
      have hr := ih acc
      by_cases hacc : key acc ≤ key (zs.foldl (pyStep key) acc)
      · have hfix := foldl_pyStep_first key zs acc hacc
        rw [List.find?_cons_of_pos _ (by simpa using hacc)]
        rw [hfix]
      · have hlt : key (zs.foldl (pyStep key) acc) < key acc := not_le.mp hacc
        have hzr : ¬ key z ≤ key (zs.foldl (pyStep key) acc) :=
          not_le.mpr (lt_of_lt_of_le hlt (le_of_not_lt hz))
        rw [List.find?_cons_of_neg _ (by simpa using hacc)] at hr
        rw [List.find?_cons_of_neg _ (by simpa using hacc),
          List.find?_cons_of_neg _ (by simpa using hzr)]
        exact hr

/-- Claim C3 counterexample: with the levels declared in the order
`[("good", 4), ("bad", 2)]` and adjusted score 3, both levels are equally
near but snapping returns 4 (the first-declared level), not the lower
level 2 the claim requires. -/
theorem level_snapping_tie_counterexample :
    snapScore [("good", 4), ("bad", 2)] 3 = 4 ∧
    (2 : Int) ∈ scoreValues [("good", 4), ("bad", 2)] ∧
    |(2 : ℚ) - 3| ≤ |(4 : ℚ) - 3| ∧
    (2 : Int) < 4 ∧
    snapScore [("good", 4), ("bad", 2)] 3 ≠ 2 := by
  refine ⟨?_, by decide, by norm_num, by decide, ?_⟩ <;>
    norm_num [snapScore, scoreValues, pyMinBy]

/-- Claim C3 (amended): for a dimension with a non-empty level set, snapping
returns a member of the level set that is nearest to the adjusted score,
breaking ties toward the level declared first in the level order (not toward
the lower level); snapping a score already equal to a declared level returns
that score unchanged. -/
theorem level_snapping_properties (levels : List (String × Int)) (s : ℚ)
    (hne : scoreValues levels ≠ []) :
    (∃ v ∈ scoreValues levels, snapScore levels s = (v : ℚ)) ∧
    (∀ y ∈ scoreValues levels, |snapScore levels s - s| ≤ |(y : ℚ) - s|) ∧
    ((∃ v ∈ scoreValues levels, (v : ℚ) = s) → snapScore levels s = s) ∧
    (∃ w, (scoreValues levels).find?
        (fun y : Int => decide (|(y : ℚ) - s| ≤ |snapScore levels s - s|)) = some w ∧
      snapScore levels s = (w : ℚ)) := by
  match hvs : scoreValues levels with
  | [] => exact absurd hvs hne
  | v :: vs =>
    have hsnap : snapScore levels s =
        ((vs.foldl (pyStep (fun x : Int => |(x : ℚ) - s|)) v : Int) : ℚ) := by
      unfold snapScore
      rw [hvs]
      rfl
    have hmem : vs.foldl (pyStep (fun x : Int => |(x : ℚ) - s|)) v ∈ v :: vs :=
      foldl_pyStep_mem _ vs v
    have hle := foldl_pyStep_le (fun x : Int => |(x : ℚ) - s|) vs v
    refine ⟨⟨_, hmem, hsnap⟩, ?_, ?_, ?_⟩
    · intro y hy
      rw [hsnap]
      rcases List.mem_cons.mp hy with h | h
      · subst h; exact hle.1
      · exact hle.2 y h
    · rintro ⟨v0, hv0, hveq⟩
      have h0 : |((v0 : ℚ)) - s| = 0 := by rw [hveq]; simp
      have hr0 : |((vs.foldl (pyStep (fun x : Int => |(x : ℚ) - s|)) v : Int) : ℚ) - s| ≤ 0 := by
        rcases List.mem_cons.mp hv0 with h | h
        · subst h; rw [← h0]; exact hle.1
        · rw [← h0]; exact hle.2 v0 h
      have habs : |((vs.foldl (pyStep (fun x : Int => |(x : ℚ) - s|)) v : Int) : ℚ) - s| = 0 :=
        le_antisymm hr0 (abs_nonneg _)
      have heq : ((vs.foldl (pyStep (fun x : Int => |(x : ℚ) - s|)) v : Int) : ℚ) = s :=
        sub_eq_zero.mp (abs_eq_zero.mp habs)
      rw [hsnap, heq]
    · refine ⟨_, ?_, hsnap⟩
      simp only [hsnap]
      exact foldl_pyStep_find (fun x : Int => |(x : ℚ) - s|) vs v

theorem level_snapping_properties_witness :
    scoreValues [("a", 1), ("b", 5)] ≠ [] ∧
    ((∃ v ∈ scoreValues [("a", 1), ("b", 5)],
        snapScore [("a", 1), ("b", 5)] 2 = (v : ℚ)) ∧
     (∀ y ∈ scoreValues [("a", 1), ("b", 5)],
        |snapScore [("a", 1), ("b", 5)] 2 - 2| ≤ |(y : ℚ) - 2|) ∧
     ((∃ v ∈ scoreValues [("a", 1), ("b", 5)], (v : ℚ) = 2) →
        snapScore [("a", 1), ("b", 5)] 2 = 2) ∧
     (∃ w, (scoreValues [("a", 1), ("b", 5)]).find?
          (fun y : Int => decide (|(y : ℚ) - 2| ≤ |snapScore [("a", 1), ("b", 5)] 2 - 2|)) =
            some w ∧
        snapScore [("a", 1), ("b", 5)] 2 = (w : ℚ))) :=
  ⟨by decide, level_snapping_properties [("a", 1), ("b", 5)] 2 (by decide)⟩

-- ───────────────────────── Claim C6 ─────────────────────────

/-- Claim C6: for a dimension with at least one matching opinion, the
dissent summary is emitted iff the raw opinion variance strictly exceeds the
threshold (10), and the numeric final score is exactly the dissent-free
snapping pipeline's value — emitting the summary never changes it. -/
theorem dissent_iff_variance_exceeds_threshold (dim : Dimension)
    (opinions : List JudicialOpinion) (evidences : EvidenceMap)
    (h : dimOpinions dim opinions ≠ []) :
    ∃ r, synthesizeDim dim opinions evidences = some r ∧
      (r.dissent_summary.isSome ↔ variance (dimOpinions dim opinions) > 10) ∧
      r.final_score = pyInt (snapScore dim.levels (scoreBeforeSnap dim opinions evidences)) := by
  cases hops : dimOpinions dim opinions with
  | nil => exact absurd hops h
  | cons a l =>
    simp only [synthesizeDim, hops]
    refine ⟨_, rfl, ?_, ?_⟩
    · by_cases hv : variance (a :: l) > 10 <;> simp [hv]
    · rfl

/-- A high-variance pair of opinions on `wDim1`. -/
def wOps6 : List JudicialOpinion :=
  [{ judge := Judge.Prosecutor, criterion_id := "d1", score := 2, argument := "gap",
     cited_evidence := [] },
   wOpinion "d1" 20]

theorem dissent_iff_variance_exceeds_threshold_witness :
    dimOpinions wDim1 wOps6 ≠ [] ∧
    (∃ r, synthesizeDim wDim1 wOps6 [] = some r ∧
      (r.dissent_summary.isSome ↔ variance (dimOpinions wDim1 wOps6) > 10) ∧
      r.final_score = pyInt (snapScore wDim1.levels (scoreBeforeSnap wDim1 wOps6 []))) :=
  ⟨by decide, dissent_iff_variance_exceeds_threshold wDim1 wOps6 [] (by decide)⟩

-- ───────────────────────── Claim C8 ─────────────────────────

theorem applyEvidence_true_le (tech : Option JudicialOpinion) (score : ℚ) :
    applyEvidence true tech score ≤
      (match tech with
       | some t => (t.score : ℚ)
       | none => 21) := by
  unfold applyEvidence
  rw [if_pos rfl]
  exact min_le_right _ _

/-- Claim C8: when the Defense opinion scores above the high threshold (21)
and the evidence audit shows missing producer sources or confirmed
hallucinations, the arbitration score is capped at the TechLead opinion's
score, or at the fixed cap 21 when no TechLead opinion exists. -/
theorem rule_of_evidence_caps_at_tech_score (dim : Dimension)
    (opinions : List JudicialOpinion) (evidences : EvidenceMap) (d : JudicialOpinion)
    (hd : findJudge Judge.Defense (dimOpinions dim opinions) = some d)
    (hscore : d.score > 21)
    (hev : (∃ c, findGoal (evidenceAt evidences "aggregation") "evidence_completeness" =
              some c ∧ c.found = false) ∨
           (∃ hl, findGoal (evidenceAt evidences "doc") "path_hallucinations_detected" =
              some hl ∧ hl.found = true)) :
    scoreBeforeSnap dim opinions evidences ≤
      (match findJudge Judge.TechLead (dimOpinions dim opinions) with
       | some t => (t.score : ℚ)
       | none => 21) := by
  have htrig : evidenceTrigger (findJudge Judge.Defense (dimOpinions dim opinions))
      (findGoal (evidenceAt evidences "aggregation") "evidence_completeness")
      (findGoal (evidenceAt evidences "doc") "path_hallucinations_detected") = true := by
    rcases hev with ⟨c, hc, hcf⟩ | ⟨hl, hh, hhf⟩
    · simp [evidenceTrigger, hd, hc, hcf, hscore]
    · simp [evidenceTrigger, hd, hh, hhf, hscore]
  simp only [scoreBeforeSnap]
  rw [htrig]
  exact applyEvidence_true_le _ _

/-- A Defense opinion above the high threshold. -/
def wDefense : JudicialOpinion :=
  { judge := Judge.Defense, criterion_id := "d1", score := 25, argument := "opt",
    cited_evidence := [] }

/-- An evidence map whose completeness audit reports missing sources. -/
def wEvsC8 : EvidenceMap := [("aggregation", [sampleEvidence "evidence_completeness" false])]

theorem rule_of_evidence_caps_at_tech_score_witness :
    findJudge Judge.Defense (dimOpinions wDim1 [wDefense]) = some wDefense ∧
    wDefense.score > 21 ∧
    (findGoal (evidenceAt wEvsC8 "aggregation") "evidence_completeness" =
        some (sampleEvidence "evidence_completeness" false) ∧
      (sampleEvidence "evidence_completeness" false).found = false) ∧
    scoreBeforeSnap wDim1 [wDefense] wEvsC8 ≤
      (match findJudge Judge.TechLead (dimOpinions wDim1 [wDefense]) with
       | some t => (t.score : ℚ)
       | none => 21) := by
  refine ⟨by decide, by decide, ⟨by decide, by decide⟩, ?_⟩
  exact rule_of_evidence_caps_at_tech_score wDim1 [wDefense] wEvsC8 wDefense (by decide)
    (by decide)
    (Or.inl ⟨sampleEvidence "evidence_completeness" false, by decide, by decide⟩)

-- ───────────────────────── Claim C9 ─────────────────────────

/-- Claim C9: for a `graph_orchestration` dimension with a TechLead opinion,
the score entering level snapping is exactly the TechLead score — the Rule
of Functionality assigns it after the Rule of Security, discarding any
security ceiling, and the Rule of Evidence can only cap it at that very same
TechLead score. -/
theorem functionality_rule_discards_security_cap (dim : Dimension)
    (opinions : List JudicialOpinion) (evidences : EvidenceMap) (t : JudicialOpinion)
    (hid : dim.id = "graph_orchestration")
    (ht : findJudge Judge.TechLead (dimOpinions dim opinions) = some t) :
    scoreBeforeSnap dim opinions evidences = (t.score : ℚ) := by
  simp only [scoreBeforeSnap, applyFunctionality, ht]
  rw [if_pos hid]
  unfold applyEvidence
  split
  · exact min_self _
  · rfl

/-- The architecture-critical dimension. -/
def wDimG : Dimension := { id := "graph_orchestration", name := "Graph", levels := [("ok", 10)] }

/-- A Prosecutor opinion charging a security violation (fires the security override). -/
def wProsecutor : JudicialOpinion :=
  { judge := Judge.Prosecutor, criterion_id := "graph_orchestration", score := 1,
    argument := "security negligence: os.system", cited_evidence := [] }

/-- The TechLead opinion on the architecture-critical dimension. -/
def wTech : JudicialOpinion := wOpinion "graph_orchestration" 8

/-- An evidence map whose safe-tooling forensics report a missing artifact
(also fires the security override). -/
def wEvsC9 : EvidenceMap := [("repo", [sampleEvidence "safe_tool_engineering" false])]

theorem functionality_rule_discards_security_cap_witness :
    wDimG.id = "graph_orchestration" ∧
    findJudge Judge.TechLead (dimOpinions wDimG [wProsecutor, wTech]) = some wTech ∧
    securityTrigger (findJudge Judge.Prosecutor (dimOpinions wDimG [wProsecutor, wTech]))
      (findGoal (evidenceAt wEvsC9 "repo") "safe_tool_engineering") = true ∧
    scoreBeforeSnap wDimG [wProsecutor, wTech] wEvsC9 = (wTech.score : ℚ) :=
  ⟨rfl, by decide, by decide,
    functionality_rule_discards_security_cap wDimG [wProsecutor, wTech] wEvsC9 wTech rfl
      (by decide)⟩

-- ───────────────────────── Claim C5 ─────────────────────────

theorem no_exchange_implies_zero (dims : List Dimension) (opinions : List JudicialOpinion)
    (evidences : EvidenceMap) :
    ∀ r ∈ chiefJusticeResults dims opinions evidences,
      r.is_no_exchange = true → r.final_score = 0 := by
  intro r hr hno
  obtain ⟨d, hd, hsyn⟩ := List.mem_filterMap.mp hr
  cases hops : dimOpinions d opinions with
  | nil => simp [synthesizeDim, hops] at hsyn
  | cons a l =>
    simp only [synthesizeDim, hops, Option.some.injEq] at hsyn
    subst hsyn
    dsimp only at hno ⊢
    obtain ⟨h0, _⟩ := Bool.and_eq_true_iff.mp hno
    have hz : snapScore d.levels (scoreBeforeSnap d opinions evidences) = 0 :=
      of_decide_eq_true h0
    rw [hz]
    decide

theorem validResults_sum_eq (results : List DimResult)
    (h : ∀ r ∈ results, r.is_no_exchange = true → r.final_score = 0) :
    ((validResults results).map (fun r => (r.final_score : ℚ))).sum =
      (results.map (fun r => (r.final_score : ℚ))).sum := by
  induction results with
  | nil => rfl
  | cons r rs ih =>
    have hr := h r (List.mem_cons_self r rs)
    have hrs : ∀ x ∈ rs, x.is_no_exchange = true → x.final_score = 0 :=
      fun x hx => h x (List.mem_cons_of_mem _ hx)
    have ih2 := ih hrs
    unfold validResults at ih2 ⊢
    cases hne : r.is_no_exchange
    · simp [List.filter_cons, hne, ih2]
    · simp [List.filter_cons, hne, hr hne, ih2]

/-- Claim C5 (amended): the report's overall percentage equals the sum of
all final scores (raw points — the no-exchange dimensions contribute 0)
divided by the sum of the maximum declared level score over the dimensions
NOT flagged no-exchange (not over every dimension), times 100, and 0 when
that possible-points sum is not positive. -/
theorem overall_score_formula (s : AgentState) (ts : String) :
    (chief_justice_node s ts).overall_score =
      if 0 < totalPossiblePoints (chiefJusticeResults s.rubric_dimensions s.opinions s.evidences)
      then (totalRawPoints (chiefJusticeResults s.rubric_dimensions s.opinions s.evidences) : ℚ) /
        (totalPossiblePoints (chiefJusticeResults s.rubric_dimensions s.opinions s.evidences) : ℚ) *
        100
      else 0 := by
  have hinv := no_exchange_implies_zero s.rubric_dimensions s.opinions s.evidences
  have hsum := validResults_sum_eq _ hinv
  show overallPercentage (chiefJusticeResults s.rubric_dimensions s.opinions s.evidences) = _
  unfold overallPercentage
  rw [hsum]
  by_cases hpos :
      0 < totalPossiblePoints (chiefJusticeResults s.rubric_dimensions s.opinions s.evidences)
  · rw [if_pos hpos, if_pos hpos]
    congr 1
    congr 1
    unfold totalRawPoints
    rw [Int.cast_list_sum, List.map_map]
    rfl
  · rw [if_neg hpos, if_neg hpos]

/-- The concrete run state for the C5 counterexample: one ordinary
dimension scoring 5 of 10 and one no-exchange dimension scoring 0 of 10. -/
def wStateC5 : AgentState :=
  { repo_url := "u", rubric_dimensions := [wDim1, wDim2],
    opinions := [wOpinion "d1" 5, wOpinion "d2" 0] }

/-- The synthesis record for `wDim1` in the C5 counterexample. -/
def wR1 : DimResult :=
  { dimension_id := "d1", dimension_name := "D1", final_score := 5,
    judge_opinions := [wOpinion "d1" 5], dissent_summary := none, remediation := "arg",
    max_score := 10, is_no_exchange := false }

/-- The synthesis record for `wDim2` in the C5 counterexample: flagged
no-exchange, so its max score leaves the possible points. -/
def wR2 : DimResult :=
  { dimension_id := "d2", dimension_name := "D2", final_score := 0,
    judge_opinions := [wOpinion "d2" 0], dissent_summary := none, remediation := "arg",
    max_score := 10, is_no_exchange := true }

theorem scoreBeforeSnap_wDim1 :
    scoreBeforeSnap wDim1 wStateC5.opinions wStateC5.evidences = 5 := by
  have hops1 : dimOpinions wDim1 wStateC5.opinions = [wOpinion "d1" 5] := by decide
  have hjp : findJudge Judge.Prosecutor [wOpinion "d1" 5] = none := by decide
  have hjd : findJudge Judge.Defense [wOpinion "d1" 5] = none := by decide
  have hjt : findJudge Judge.TechLead [wOpinion "d1" 5] = some (wOpinion "d1" 5) := by decide
  simp only [scoreBeforeSnap, hops1, hjp, hjd, hjt]
  norm_num [wStateC5, wDim1, wOpinion, evidenceAt, dlookup, findGoal, securityTrigger,
    isSecurityFlaw, evidenceTrigger, applySecurity, applyFunctionality, applyEvidence,
    avgScore, opScores]

theorem scoreBeforeSnap_wDim2 :
    scoreBeforeSnap wDim2 wStateC5.opinions wStateC5.evidences = 0 := by
  have hops2 : dimOpinions wDim2 wStateC5.opinions = [wOpinion "d2" 0] := by decide
  have hjp : findJudge Judge.Prosecutor [wOpinion "d2" 0] = none := by decide
  have hjd : findJudge Judge.Defense [wOpinion "d2" 0] = none := by decide
  have hjt : findJudge Judge.TechLead [wOpinion "d2" 0] = some (wOpinion "d2" 0) := by decide
  simp only [scoreBeforeSnap, hops2, hjp, hjd, hjt]
  norm_num [wStateC5, wDim2, wOpinion, evidenceAt, dlookup, findGoal, securityTrigger,
    isSecurityFlaw, evidenceTrigger, applySecurity, applyFunctionality, applyEvidence,
    avgScore, opScores]

theorem synthesizeDim_wDim1 :
    synthesizeDim wDim1 wStateC5.opinions wStateC5.evidences = some wR1 := by
  have hops1 : dimOpinions wDim1 wStateC5.opinions = [wOpinion "d1" 5] := by decide
  have hsnap1 : snapScore wDim1.levels (5 : ℚ) = 5 := by
    norm_num [snapScore, scoreValues, wDim1, pyMinBy]
  simp only [synthesizeDim, hops1]
  rw [scoreBeforeSnap_wDim1, hsnap1]
  decide

theorem synthesizeDim_wDim2 :
    synthesizeDim wDim2 wStateC5.opinions wStateC5.evidences = some wR2 := by
  have hops2 : dimOpinions wDim2 wStateC5.opinions = [wOpinion "d2" 0] := by decide
  have hsnap2 : snapScore wDim2.levels (0 : ℚ) = 0 := by
    norm_num [snapScore, scoreValues, wDim2, pyMinBy]
  simp only [synthesizeDim, hops2]
  rw [scoreBeforeSnap_wDim2, hsnap2]
  decide

/-- Claim C5 counterexample: on a concrete run with one no-exchange
dimension, the report's overall percentage is 50, while the claimed formula
(raw points over the sum of EVERY dimension's maximum declared level,
times 100) gives 25. -/
theorem overall_score_all_dimensions_counterexample :
    (chief_justice_node wStateC5 "t").overall_score = 50 ∧
    (totalRawPoints (chiefJusticeResults wStateC5.rubric_dimensions wStateC5.opinions
        wStateC5.evidences) : ℚ) /
      (((chiefJusticeResults wStateC5.rubric_dimensions wStateC5.opinions
          wStateC5.evidences).map (fun r => r.max_score)).sum : ℚ) * 100 = 25 ∧
    (50 : ℚ) ≠ 25 := by
  have hres : chiefJusticeResults wStateC5.rubric_dimensions wStateC5.opinions
      wStateC5.evidences = [wR1, wR2] := by
    have hrd : wStateC5.rubric_dimensions = [wDim1, wDim2] := rfl
    rw [hrd]
    simp [chiefJusticeResults, List.filterMap_cons, synthesizeDim_wDim1, synthesizeDim_wDim2]
  refine ⟨?_, ?_, by norm_num⟩
  · show overallPercentage (chiefJusticeResults wStateC5.rubric_dimensions wStateC5.opinions
      wStateC5.evidences) = 50
    rw [hres]
    norm_num [overallPercentage, totalPossiblePoints, validResults, List.filter_cons, wR1, wR2]
  · rw [hres]
    norm_num [totalRawPoints, wR1, wR2]
